import Mathlib

/-!
Verification of the lead-registration pipeline of the backend-brighte-eats
repository: a shallow embedding of the input validator (RegisterInput
class-validator decorators), the persistence gateway (LeadsRepository.create
over the Prisma client and the relational schema of
prisma/migrations/..._init/migration.sql), the persistence-error translator
(BaseRepository.handlePrismaError and its revisions), the response envelope
builder (UtilityService.handleSuccess / handleError), and the registration
orchestrator (LeadsService.registerLead behind the GraphQL register
mutation), together with theorems about the behaviour documented in the
specification.
-/

namespace BrighteEats

/-- Embeds the ServiceType enum of the Prisma schema
(enum ServiceType with variants DELIVERY, PICKUP, PAYMENT). -/
inductive ServiceType
  | DELIVERY
  | PICKUP
  | PAYMENT
deriving DecidableEq, Repr

/-- Embeds the RegisterInput GraphQL input type
(src/leads/dto/register.input.ts): scalar fields plus the list of
requested service types. -/
structure RegisterInput where
  name : String
  email : String
  mobile : String
  postCode : String
  serviceType : List ServiceType
deriving DecidableEq, Repr

/-- Embeds the possible shapes of the meta.target property of a
PrismaClientKnownRequestError: an array of field names, a single string, or
absent. The translator revisions treat these shapes differently. -/
inductive TargetVal
  | strings (fs : List String)
  | str (s : String)
  | absent
deriving DecidableEq, Repr

/-- Embeds PrismaClientKnownRequestError: a Prisma error code such as P2002,
the raw storage-layer message, and the optional meta object (when present it
carries the target description). -/
structure KnownRequestError where
  code : String
  message : String
  meta : Option TargetVal
deriving DecidableEq, Repr

namespace PRISMA_ERROR_CODES

/-- Embeds PRISMA_ERROR_CODES.PRISMA_UNIQUE_CONSTRAINT from
src/shared/common/constants. -/
def PRISMA_UNIQUE_CONSTRAINT : String := "P2002"

/-- Embeds PRISMA_ERROR_CODES.RECORD_NOT_FOUND from
src/shared/common/constants. -/
def RECORD_NOT_FOUND : String := "P2025"

end PRISMA_ERROR_CODES

namespace ERROR_CODES

def INTERNAL_SERVER_ERROR : String := "INTERNAL_SERVER_ERROR"

def BAD_REQUEST : String := "BAD_REQUEST"

def NOT_FOUND : String := "NOT_FOUND"

def CONFLICT : String := "CONFLICT"

end ERROR_CODES

namespace ERROR_MESSAGES

def INTERNAL_SERVER_ERROR : String := "Internal Server Error"

def BAD_REQUEST : String := "Bad Request"

def NOT_FOUND : String := "Resource Not Found"

/-- Embeds ERROR_MESSAGES.LEADS.MINIMUM_SERVICE_TYPE from
src/shared/common/constants/error-messages.constants.ts. -/
def MINIMUM_SERVICE_TYPE : String := "At least one service type must be selected"

/-- Embeds ERROR_MESSAGES.LEADS.INVALID_PHONE_NUMBER from
src/shared/common/constants/error-messages.constants.ts. -/
def INVALID_PHONE_NUMBER : String := "Please enter a valid Philippines phone number"

/-- Modelled from the spec: ERROR_MESSAGES.FIELD_NAMES_EXIST is referenced by
BaseRepository.throwPrismaUniqueConstraint but its definition is missing from
the provided sources; the spec gives the example message
"Email already exists" for the capitalized field name Email, so the template
appends " already exists" to the joined field names. -/
def FIELD_NAMES_EXIST (fieldNames : String) : String :=
  fieldNames ++ " already exists"

/-- Modelled from the spec: ERROR_MESSAGES.DATABASE_ERROR is referenced by
BaseRepository.handleKnownRequestError but its definition is missing from the
provided sources; the spec says the internal-error mapping may embed the
original storage error message for diagnostics. -/
def DATABASE_ERROR (e : KnownRequestError) : String :=
  "Database error: " ++ e.message

end ERROR_MESSAGES

namespace SUCCESS_MESSAGES

def DEFAULT : String := "Success"

/-- Embeds SUCCESS_MESSAGES.LEADS.REGISTERED from
src/shared/common/constants/success-messages.constants.ts. -/
def LEADS_REGISTERED : String := "Lead registered successfully"

end SUCCESS_MESSAGES

/-- Embeds the response object passed to NestJS HttpException constructors in
this code base: a message and a machine-readable code. -/
structure ErrBody where
  message : String
  code : String
deriving DecidableEq, Repr

/-- Embeds the NestJS HttpException subclasses this code base throws. The
subclass determines the HTTP status code. -/
inductive HttpErr
  | conflict (body : ErrBody)
  | badRequest (body : ErrBody)
  | notFound (body : ErrBody)
  | internal (body : ErrBody)
deriving DecidableEq, Repr

/-- Embeds HttpException.getStatus: 409 for ConflictException, 400 for
BadRequestException, 404 for NotFoundException, 500 for
InternalServerErrorException. -/
def HttpErr.status : HttpErr → Nat
  | .conflict _ => 409
  | .badRequest _ => 400
  | .notFound _ => 404
  | .internal _ => 500

/-- Embeds the response body carried by the exception. -/
def HttpErr.body : HttpErr → ErrBody
  | .conflict b => b
  | .badRequest b => b
  | .notFound b => b
  | .internal b => b

/-- Embeds a JavaScript thrown value as observed by a catch block or by the
instanceof classifiers of this code base: a PrismaClientKnownRequestError, a
NestJS HttpException, some other Error instance (carrying its message
property), or a non-Error value. -/
inductive CaughtValue
  | knownRequest (e : KnownRequestError)
  | httpException (e : HttpErr)
  | jsError (message : String)
  | otherValue
deriving DecidableEq, Repr

/-- Embeds what a handler ends up throwing: an HttpException, a runtime
TypeError raised by an unguarded property access, or a re-throw of the
original caught value. -/
inductive Thrown
  | http (e : HttpErr)
  | typeError
  | reraise (orig : CaughtValue)
deriving DecidableEq, Repr

/-- Embeds how a Thrown value looks to the next catch block up the stack:
HttpExceptions stay HttpExceptions, a TypeError is an Error instance, a
re-thrown value is the original value. -/
def Thrown.asCaught : Thrown → CaughtValue
  | .http e => .httpException e
  | .typeError => .jsError "TypeError"
  | .reraise v => v

/-- Embeds field.charAt(0).toUpperCase() + field.slice(1): the first
character upper-cased, the rest unchanged, the empty string unchanged. -/
def capitalizeFirst (s : String) : String :=
  match s.data with
  | [] => ""
  | c :: cs => String.mk (c.toUpper :: cs)

/-- Embeds fields.map(capitalize).join(" and ") from
BaseRepository.throwPrismaUniqueConstraint. -/
def fieldNamesOf (fs : List String) : String :=
  String.intercalate " and " (fs.map capitalizeFirst)

namespace BaseRepository

/-- Embeds BaseRepository.throwPrismaUniqueConstraint of the named revision
(src/shared/common/repository/base.repository.ts): reads error.meta.target
without guarding meta, so an absent meta raises a TypeError, a string target
breaks on fields.map, an array target is capitalized, joined with " and ",
and wrapped in a ConflictException. -/
def throwPrismaUniqueConstraint (e : KnownRequestError) : Thrown :=
  match e.meta with
  | none => .typeError
  | some .absent =>
      .http (.conflict { message := ERROR_MESSAGES.FIELD_NAMES_EXIST (fieldNamesOf []),
                         code := ERROR_CODES.CONFLICT })
  | some (.strings fs) =>
      .http (.conflict { message := ERROR_MESSAGES.FIELD_NAMES_EXIST (fieldNamesOf fs),
                         code := ERROR_CODES.CONFLICT })
  | some (.str _) => .typeError

/-- Embeds BaseRepository.handleKnownRequestError of the named revision
(src/shared/common/repository/base.repository.ts): P2002 goes to the
unique-constraint branch, every other known code goes to an
InternalServerErrorException carrying the DATABASE_ERROR diagnostic text. -/
def handleKnownRequestError (e : KnownRequestError) : Thrown :=
  if e.code = PRISMA_ERROR_CODES.PRISMA_UNIQUE_CONSTRAINT then
    throwPrismaUniqueConstraint e
  else
    .http (.internal { message := ERROR_MESSAGES.DATABASE_ERROR e,
                       code := ERROR_CODES.INTERNAL_SERVER_ERROR })

/-- Embeds BaseRepository.handleUnknownError: always an
InternalServerErrorException with the generic message. -/
def handleUnknownError : Thrown :=
  .http (.internal { message := ERROR_MESSAGES.INTERNAL_SERVER_ERROR,
                     code := ERROR_CODES.INTERNAL_SERVER_ERROR })

/-- Embeds the switch(true) statement of BaseRepository.handlePrismaError:
a PrismaClientKnownRequestError goes to handleKnownRequestError, everything
else to handleUnknownError. The Option records whether a throw fired inside
the switch (some when one of the handlers threw). -/
def switchHandlePrisma (v : CaughtValue) : Option Thrown :=
  match v with
  | .knownRequest e => some (handleKnownRequestError e)
  | _ => some handleUnknownError

/-- Embeds BaseRepository.handlePrismaError including its trailing
throw error statement: if neither branch of the switch threw, the original
error would be re-thrown. -/
def handlePrismaError (v : CaughtValue) : Thrown :=
  match switchHandlePrisma v with
  | some t => t
  | none => .reraise v

end BaseRepository

namespace BaseRepositoryR2

/-- Embeds throwPrismaUniqueConstraint of the revised BaseRepository
(src/unnamed/part_009): destructures target out of error.meta with defaults,
keeps array targets, wraps a lone string target in a singleton list, and
falls back to the empty list, so no TypeError can occur. -/
def throwPrismaUniqueConstraint (e : KnownRequestError) : Thrown :=
  let fields : List String :=
    match e.meta with
    | none => []
    | some .absent => []
    | some (.strings fs) => fs
    | some (.str s) => [s]
  .http (.conflict { message := ERROR_MESSAGES.FIELD_NAMES_EXIST (fieldNamesOf fields),
                     code := ERROR_CODES.CONFLICT })

/-- Embeds handleKnownRequestError of the revised BaseRepository
(src/unnamed/part_009): P2002 goes to the unique-constraint branch, P2025 to
a NotFoundException, every other known code to an
InternalServerErrorException. -/
def handleKnownRequestError (e : KnownRequestError) : Thrown :=
  if e.code = PRISMA_ERROR_CODES.PRISMA_UNIQUE_CONSTRAINT then
    throwPrismaUniqueConstraint e
  else if e.code = PRISMA_ERROR_CODES.RECORD_NOT_FOUND then
    .http (.notFound { message := ERROR_MESSAGES.NOT_FOUND,
                       code := ERROR_CODES.NOT_FOUND })
  else
    .http (.internal { message := ERROR_MESSAGES.DATABASE_ERROR e,
                       code := ERROR_CODES.INTERNAL_SERVER_ERROR })

end BaseRepositoryR2

namespace UtilityService

/-- Embeds the uniform success envelope ISuccessResponse of
src/shared/utilities/interfaces/response.interface. -/
structure Envelope (T : Type) where
  success : Bool
  statusCode : Nat
  message : String
  data : T
deriving DecidableEq, Repr

/-- Embeds UtilityService.handleSuccess: wraps data with success true and the
given message and status code. -/
def handleSuccess {T : Type} (data : T) (message : String) (statusCode : Nat) :
    Envelope T :=
  { success := true, statusCode := statusCode, message := message, data := data }

/-- Embeds UtilityService.handleError
(src/shared/utilities/services/utility.service.ts): HttpExceptions are
re-thrown unchanged; any other Error instance is wrapped in a
BadRequestException carrying that errors own message property; non-Error
values collapse to a generic InternalServerErrorException. A
PrismaClientKnownRequestError is an Error instance, so it takes the
BadRequestException branch with its raw storage message. -/
def handleError (v : CaughtValue) : Thrown :=
  match v with
  | .httpException e => .http e
  | .knownRequest e =>
      .http (.badRequest { message := e.message, code := ERROR_CODES.BAD_REQUEST })
  | .jsError msg =>
      .http (.badRequest { message := msg, code := ERROR_CODES.BAD_REQUEST })
  | .otherValue =>
      .http (.internal { message := ERROR_MESSAGES.INTERNAL_SERVER_ERROR,
                         code := ERROR_CODES.INTERNAL_SERVER_ERROR })

/-- Embeds the instanceof Error test on a caught value: Prisma known request
errors, HttpExceptions and plain Errors are Error instances, other thrown
values are not. -/
def isErrorInstance : CaughtValue → Bool
  | .knownRequest _ => true
  | .httpException _ => true
  | .jsError _ => true
  | .otherValue => false

/-- Embeds the instanceof HttpException test on a caught value. -/
def isHttpException : CaughtValue → Bool
  | .httpException _ => true
  | _ => false

/-- Embeds reading the message property of a caught Error instance. -/
def errorMessageOf : CaughtValue → Option String
  | .knownRequest e => some e.message
  | .httpException e => some e.body.message
  | .jsError m => some m
  | .otherValue => none

end UtilityService

/-- Embeds a row of the Lead table of the relational schema
(prisma migration: id primary key autoincrement, scalar columns, email
unique). Timestamps are server-assigned and carried by no claim, so they are
omitted. -/
structure LeadRow where
  id : Nat
  name : String
  mobile : String
  email : String
  postCode : String
deriving DecidableEq, Repr

/-- Embeds a row of the ServiceInterest table of the relational schema
(id primary key autoincrement, leadId foreign key, serviceType enum, and the
unique index on the pair leadId, serviceType). -/
structure ServiceInterestRow where
  id : Nat
  leadId : Nat
  serviceType : ServiceType
deriving DecidableEq, Repr

/-- Embeds the state of the backing relational store: the two tables plus
the autoincrement counters of their primary keys. -/
structure DbState where
  leads : List LeadRow
  interests : List ServiceInterestRow
  nextLeadId : Nat
  nextInterestId : Nat
deriving DecidableEq, Repr

/-- Embeds the Prisma.LeadCreateInput value built by LeadsRepository.create:
the scalar fields plus the optional nested ServiceInterest create list
(absent when the submitted list is empty, because of the truthiness guard
serviceType?.length). -/
structure LeadCreateInput where
  name : String
  mobile : String
  email : String
  postCode : String
  serviceInterestCreate : Option (List ServiceType)
deriving DecidableEq, Repr

/-- Embeds the value returned by prisma.lead.create with
include ServiceInterest: the created Lead row together with its
ServiceInterest rows. -/
structure CreatedLead where
  lead : LeadRow
  serviceInterest : List ServiceInterestRow
deriving DecidableEq, Repr

/-- Embeds the sequential insertion of the nested ServiceInterest rows: ids
are assigned by the autoincrement counter, the owning lead id is shared. -/
def interestRows (leadId : Nat) (firstId : Nat) : List ServiceType → List ServiceInterestRow
  | [] => []
  | t :: ts => { id := firstId, leadId := leadId, serviceType := t } :: interestRows leadId (firstId + 1) ts

/-- Embeds the behaviour of prisma.lead.create with a nested ServiceInterest
create against the repository schema: the whole nested write runs in one
implicit transaction (Prisma nested-write semantics), the unique index on
Lead.email rejects a duplicate email with P2002 targeting email, and the
unique index on the pair leadId, serviceType rejects duplicate entries of
the nested list with P2002 targeting that pair. On any rejection the
transaction rolls back and the function yields no new state. -/
def prismaLeadCreate (st : DbState) (inp : LeadCreateInput) :
    Except KnownRequestError (DbState × CreatedLead) :=
  if st.leads.any (fun l => l.email = inp.email) then
    .error { code := "P2002",
             message := "Unique constraint failed on the fields: (email)",
             meta := some (.strings ["email"]) }
  else
    let types := inp.serviceInterestCreate.getD []
    if types.Nodup then
      let lead : LeadRow :=
        { id := st.nextLeadId, name := inp.name, mobile := inp.mobile,
          email := inp.email, postCode := inp.postCode }
      let rows := interestRows lead.id st.nextInterestId types
      .ok ({ leads := st.leads ++ [lead],
             interests := st.interests ++ rows,
             nextLeadId := st.nextLeadId + 1,
             nextInterestId := st.nextInterestId + types.length },
           { lead := lead, serviceInterest := rows })
    else
      .error { code := "P2002",
               message := "Unique constraint failed on the fields: (leadId,serviceType)",
               meta := some (.strings ["leadId", "serviceType"]) }

/-- Embeds the construction of createLeadInput inside LeadsRepository.create:
the scalars are copied and the nested ServiceInterest create block is spread
in only when serviceType?.length is truthy, that is when the list is
non-empty. -/
def buildCreateLeadInput (d : RegisterInput) : LeadCreateInput :=
  { name := d.name, mobile := d.mobile, email := d.email, postCode := d.postCode,
    serviceInterestCreate :=
      if d.serviceType.length = 0 then none else some d.serviceType }

namespace LeadsRepository

/-- Embeds LeadsRepository.create of the named revision
(src/leads/repositories/leads.repository.ts): no try/catch, so a storage
failure propagates as the raw PrismaClientKnownRequestError. -/
def create (st : DbState) (d : RegisterInput) :
    Except CaughtValue (DbState × CreatedLead) :=
  match prismaLeadCreate st (buildCreateLeadInput d) with
  | .ok r => .ok r
  | .error e => .error (.knownRequest e)

end LeadsRepository

namespace LeadsRepositoryR2

/-- Embeds LeadsRepository.create of the revision extending BaseRepository
(src/unnamed/part_006): same write, but the catch block routes every failure
through handlePrismaError, so what propagates is the classified
HttpException. -/
def create (st : DbState) (d : RegisterInput) :
    Except Thrown (DbState × CreatedLead) :=
  match prismaLeadCreate st (buildCreateLeadInput d) with
  | .ok r => .ok r
  | .error e => .error (BaseRepository.handlePrismaError (.knownRequest e))

end LeadsRepositoryR2

namespace LeadsService

open UtilityService

/-- Embeds LeadsService.registerLead
(src/leads/services/leads.service.ts), wired to the repository revision that
classifies storage errors through the base repository: on success the
created lead is wrapped by handleSuccess with the REGISTERED message and
status 201 (HttpStatus.CREATED); every caught error goes through
handleError, which always throws. -/
def registerLead (st : DbState) (d : RegisterInput) :
    Except Thrown (DbState × Envelope CreatedLead) :=
  match LeadsRepositoryR2.create st d with
  | .ok (st', lead) =>
      .ok (st', handleSuccess lead SUCCESS_MESSAGES.LEADS_REGISTERED 201)
  | .error t => .error (handleError t.asCaught)

end LeadsService

/-- Embeds the external collaborators the validator delegates to: the
class-validator IsEmail and IsPhoneNumber("PH") predicates. -/
structure ValidationEnv where
  isEmail : String → Bool
  isPhonePH : String → Bool

/-- Embeds the class-validator decorators on RegisterInput
(src/unnamed/part_002, ArrayMinSize revision): IsNotEmpty on name, email,
mobile and postCode, IsEmail on email, IsPhoneNumber with the PH region and
the INVALID_PHONE_NUMBER message on mobile, IsEnum per element (guaranteed
by typing) and ArrayMinSize 1 with the MINIMUM_SERVICE_TYPE message on
serviceType. Returns the list of constraint messages that failed. -/
def validateRegisterInput (env : ValidationEnv) (d : RegisterInput) : List String :=
  (if d.name = "" then ["name should not be empty"] else []) ++
  (if env.isEmail d.email = false then ["email must be an email"] else []) ++
  (if d.email = "" then ["email should not be empty"] else []) ++
  (if d.mobile = "" then ["mobile should not be empty"] else []) ++
  (if env.isPhonePH d.mobile = false then [ERROR_MESSAGES.INVALID_PHONE_NUMBER] else []) ++
  (if d.postCode = "" then ["postCode should not be empty"] else []) ++
  (if d.serviceType.length < 1 then [ERROR_MESSAGES.MINIMUM_SERVICE_TYPE] else [])

/-- Embeds the failure channel of the whole register operation: either the
global ValidationPipe rejected the input with a BadRequestException carrying
the constraint messages (status 400), or a classified exception was thrown
further down the pipeline. -/
inductive RegisterFailure
  | validation (messages : List String)
  | thrown (t : Thrown)
deriving DecidableEq, Repr

/-- Embeds the HTTP status of a register failure: the ValidationPipe
BadRequestException carries 400, a thrown HttpException carries its own
status. -/
def RegisterFailure.status : RegisterFailure → Option Nat
  | .validation _ => some 400
  | .thrown (.http e) => some e.status
  | .thrown _ => none

/-- Embeds the outcome the external caller observes. -/
inductive RegisterResult
  | ok (e : UtilityService.Envelope CreatedLead)
  | fail (f : RegisterFailure)
deriving DecidableEq, Repr

/-- Embeds the register mutation end to end: the global ValidationPipe
(app.module.ts) validates the RegisterInput before the resolver runs; on
constraint failures it throws before any persistence is attempted, so the
store is unchanged; otherwise LeadsResolver.register forwards to
LeadsService.registerLead. The returned DbState is the store after the
call: unchanged on every failure because the single nested write is
transactional. -/
def register (env : ValidationEnv) (st : DbState) (d : RegisterInput) :
    DbState × RegisterResult :=
  if validateRegisterInput env d = [] then
    match LeadsService.registerLead st d with
    | .ok (st', envl) => (st', .ok envl)
    | .error t => (st, .fail (.thrown t))
  else
    (st, .fail (.validation (validateRegisterInput env d)))

/-! Concrete sample values, used by the witness theorems. The scalar values
come from the example in the specification. -/

/-- Validation environment in which every email and every phone number is
accepted by the external class-validator predicates. -/
def envAll : ValidationEnv :=
  { isEmail := fun _ => true, isPhonePH := fun _ => true }

/-- Empty store. -/
def db0 : DbState :=
  { leads := [], interests := [], nextLeadId := 1, nextInterestId := 1 }

/-- The registration payload of the specification example. -/
def sampleInput : RegisterInput :=
  { name := "Dr. Lana Mann", email := "lana@example.com",
    mobile := "+63-946-922-8301", postCode := "1588",
    serviceType := [.DELIVERY, .PAYMENT] }

/-- The Lead row the gateway creates for sampleInput on the empty store. -/
def sampleLead : LeadRow :=
  { id := 1, name := "Dr. Lana Mann", mobile := "+63-946-922-8301",
    email := "lana@example.com", postCode := "1588" }

/-- The ServiceInterest rows the gateway creates for sampleInput on the
empty store. -/
def sampleRows : List ServiceInterestRow :=
  [{ id := 1, leadId := 1, serviceType := .DELIVERY },
   { id := 2, leadId := 1, serviceType := .PAYMENT }]

/-- The gateway result for sampleInput on the empty store. -/
def sampleCreated : CreatedLead :=
  { lead := sampleLead, serviceInterest := sampleRows }

/-- The store after registering sampleInput on the empty store. -/
def db1 : DbState :=
  { leads := [sampleLead], interests := sampleRows,
    nextLeadId := 2, nextInterestId := 3 }

/-- A store that already holds a lead with the sample email. -/
def dbWithLana : DbState :=
  { leads := [{ id := 7, name := "Existing", mobile := "+63-900-000-0000",
                email := "lana@example.com", postCode := "1000" }],
    interests := [], nextLeadId := 8, nextInterestId := 1 }

/-- The sample payload with a duplicated service type entry. -/
def dupTypesInput : RegisterInput :=
  { sampleInput with serviceType := [.DELIVERY, .DELIVERY] }

/-- The sample payload with an empty service type list. -/
def emptyTypesInput : RegisterInput :=
  { sampleInput with serviceType := [] }

/-- Helper: the nested insertion produces one row per submitted type. -/
lemma interestRows_length (leadId : Nat) :
    ∀ (firstId : Nat) (ts : List ServiceType),
      (interestRows leadId firstId ts).length = ts.length := by
  intro firstId ts
  induction ts generalizing firstId with
  | nil => rfl
  | cons t ts ih => simp [interestRows, ih]

/-- Helper: the named-revision translator of known request errors never
produces a re-throw of a caught value. -/
lemma handleKnownRequestError_ne_reraise (e : KnownRequestError) (v : CaughtValue) :
    BaseRepository.handleKnownRequestError e ≠ Thrown.reraise v := by
  unfold BaseRepository.handleKnownRequestError
  split_ifs with h
  · unfold BaseRepository.throwPrismaUniqueConstraint
    cases hm : e.meta with
    | none => simp
    | some tv => cases tv <;> simp
  · simp

/-- C1: for every registration whose email already exists in storage (the
store reports a P2002 unique-constraint violation targeting email), the
pipeline produces a conflict outcome with statusCode 409 whose message names
the offending field capitalized ("Email already exists"), and 409 is the
status of conflict outcomes only, so the outcome is distinguishable from
every other failure kind. -/
theorem C1_duplicate_email_conflict (env : ValidationEnv) (st : DbState)
    (d : RegisterInput)
    (hv : validateRegisterInput env d = [])
    (hdup : st.leads.any (fun l => l.email = d.email) = true) :
    register env st d =
      (st, .fail (.thrown (.http (.conflict
        { message := ERROR_MESSAGES.FIELD_NAMES_EXIST (fieldNamesOf ["email"]),
          code := ERROR_CODES.CONFLICT })))) ∧
    ERROR_MESSAGES.FIELD_NAMES_EXIST (fieldNamesOf ["email"]) = "Email already exists" ∧
    (∀ h : HttpErr, h.status = 409 ↔ ∃ b, h = HttpErr.conflict b) := by
  refine ⟨?_, by decide, ?_⟩
  · simp only [register, hv, if_pos rfl, LeadsService.registerLead,
      LeadsRepositoryR2.create, prismaLeadCreate, buildCreateLeadInput, hdup,
      if_true, BaseRepository.handlePrismaError, BaseRepository.switchHandlePrisma,
      BaseRepository.handleKnownRequestError, BaseRepository.throwPrismaUniqueConstraint,
      PRISMA_ERROR_CODES.PRISMA_UNIQUE_CONSTRAINT, Thrown.asCaught,
      UtilityService.handleError]
  · intro h
    cases h <;> simp [HttpErr.status]

/-- Witness for C1 at the specification example payload against a store that
already holds a lead with the same email. -/
theorem C1_duplicate_email_conflict_witness :
    register envAll dbWithLana sampleInput =
      (dbWithLana, .fail (.thrown (.http (.conflict
        { message := "Email already exists", code := "CONFLICT" })))) := by
  have h := C1_duplicate_email_conflict envAll dbWithLana sampleInput
    (by decide) (by decide)
  rw [h.1, h.2.1]
  rfl

/-- C2 counterexample: a storage connection failure (an Error instance that
is not an HttpException) does not collapse to a generic 500; handleError
re-wraps it as a 400 BadRequestException that carries the original exception
message verbatim, so the claim fails at this input. -/
theorem C2_counterexample :
    UtilityService.handleError (CaughtValue.jsError "connect ECONNREFUSED 127.0.0.1:5432") =
      Thrown.http (HttpErr.badRequest
        { message := "connect ECONNREFUSED 127.0.0.1:5432",
          code := ERROR_CODES.BAD_REQUEST }) ∧
    HttpErr.status (HttpErr.badRequest
        { message := "connect ECONNREFUSED 127.0.0.1:5432",
          code := ERROR_CODES.BAD_REQUEST }) = 400 := by
  exact ⟨rfl, rfl⟩

/-- C2 amended: among non-HttpException errors, only values that are not
Error instances collapse to the generic internal/500 outcome; an Error
instance (including a raw Prisma known request error) is mapped to a 400
BadRequestException whose message is the original exception message
verbatim. -/
theorem C2_amended_error_mapping (v : CaughtValue)
    (hhttp : UtilityService.isHttpException v = false) :
    (UtilityService.isErrorInstance v = false →
      UtilityService.handleError v =
        Thrown.http (HttpErr.internal
          { message := ERROR_MESSAGES.INTERNAL_SERVER_ERROR,
            code := ERROR_CODES.INTERNAL_SERVER_ERROR })) ∧
    (∀ m, UtilityService.errorMessageOf v = some m →
      UtilityService.handleError v =
        Thrown.http (HttpErr.badRequest
          { message := m, code := ERROR_CODES.BAD_REQUEST })) := by
  cases v with
  | knownRequest e =>
      refine ⟨fun h => Bool.noConfusion h, ?_⟩
      intro m hm
      simp [UtilityService.errorMessageOf] at hm
      simp [UtilityService.handleError, hm]
  | httpException e => cases hhttp
  | jsError msg =>
      refine ⟨fun h => Bool.noConfusion h, ?_⟩
      intro m hm
      simp [UtilityService.errorMessageOf] at hm
      simp [UtilityService.handleError, hm]
  | otherValue =>
      refine ⟨fun _ => rfl, ?_⟩
      intro m hm
      simp [UtilityService.errorMessageOf] at hm

/-- Witness for C2 amended: a non-Error thrown value collapses to the
generic internal outcome, and an Error instance keeps its own message with
status 400. -/
theorem C2_amended_error_mapping_witness :
    UtilityService.handleError CaughtValue.otherValue =
      Thrown.http (HttpErr.internal
        { message := ERROR_MESSAGES.INTERNAL_SERVER_ERROR,
          code := ERROR_CODES.INTERNAL_SERVER_ERROR }) ∧
    UtilityService.handleError (CaughtValue.jsError "boom") =
      Thrown.http (HttpErr.badRequest
        { message := "boom", code := ERROR_CODES.BAD_REQUEST }) := by
  exact ⟨(C2_amended_error_mapping CaughtValue.otherValue rfl).1 rfl,
         (C2_amended_error_mapping (CaughtValue.jsError "boom") rfl).2 "boom" rfl⟩

/-- C3: whenever the persistence step succeeds, registerLead returns the
envelope with success true, statusCode 201, message
"Lead registered successfully" and the created lead (with its
ServiceInterest list) as data. -/
theorem C3_success_envelope (st : DbState) (d : RegisterInput)
    (st' : DbState) (res : CreatedLead)
    (h : LeadsRepositoryR2.create st d = .ok (st', res)) :
    LeadsService.registerLead st d =
      .ok (st', { success := true, statusCode := 201,
                  message := "Lead registered successfully", data := res }) := by
  unfold LeadsService.registerLead
  rw [h]
  rfl

/-- Witness for C3 at the specification example payload on the empty
store. -/
theorem C3_success_envelope_witness :
    LeadsService.registerLead db0 sampleInput =
      .ok (db1, { success := true, statusCode := 201,
                  message := "Lead registered successfully",
                  data := sampleCreated }) := by
  exact C3_success_envelope db0 sampleInput db1 sampleCreated (by rfl)

/-- C4 counterexample: at a valid payload with a unique email whose
serviceType list contains a duplicate entry, the gateway maps every list
element to a nested create row without deduplicating, the unique index on
the pair leadId, serviceType rejects the write, and register produces a
conflict failure instead of a successful result, so the claim fails at this
input. -/
theorem C4_counterexample :
    register envAll db0 dupTypesInput =
      (db0, .fail (.thrown (.http (.conflict
        { message := "LeadId and ServiceType already exists",
          code := "CONFLICT" })))) := by
  rfl

/-- C4 amended: for every valid input with a unique email, at least one
valid service type, and no duplicate entries in the submitted serviceType
list, register succeeds with status 201 and the serviceInterest list of the
result has length equal to the number of distinct service types submitted;
when the list contains duplicates the write is rejected by the
unique-constraint on the pair leadId, serviceType and no successful result
is produced. -/
theorem C4_amended_distinct_interest_count (env : ValidationEnv) (st : DbState)
    (d : RegisterInput)
    (hv : validateRegisterInput env d = [])
    (hne : d.serviceType ≠ [])
    (hnodup : d.serviceType.Nodup)
    (hmail : st.leads.any (fun l => l.email = d.email) = false) :
    ∃ st' envl, register env st d = (st', RegisterResult.ok envl) ∧
      envl.success = true ∧ envl.statusCode = 201 ∧
      envl.data.serviceInterest.length = d.serviceType.dedup.length := by
  have hlen : ¬ d.serviceType.length = 0 := by
    simpa [List.length_eq_zero] using hne
  refine ⟨{ leads := st.leads ++
              [{ id := st.nextLeadId, name := d.name, mobile := d.mobile,
                 email := d.email, postCode := d.postCode }],
            interests := st.interests ++
              interestRows st.nextLeadId st.nextInterestId d.serviceType,
            nextLeadId := st.nextLeadId + 1,
            nextInterestId := st.nextInterestId + d.serviceType.length },
          { success := true, statusCode := 201,
            message := SUCCESS_MESSAGES.LEADS_REGISTERED,
            data := { lead := { id := st.nextLeadId, name := d.name,
                                mobile := d.mobile, email := d.email,
                                postCode := d.postCode },
                      serviceInterest :=
                        interestRows st.nextLeadId st.nextInterestId d.serviceType } },
          ?_, rfl, rfl, ?_⟩
  · simp only [register, hv, if_pos rfl, LeadsService.registerLead,
      LeadsRepositoryR2.create, prismaLeadCreate, buildCreateLeadInput,
      hmail, Bool.false_eq_true, if_false, if_neg hlen, Option.getD_some,
      if_pos hnodup, UtilityService.handleSuccess]
    rw [if_pos trivial]
  · simp only []
    rw [interestRows_length, List.dedup_eq_self.mpr hnodup]

/-- Witness for C4 amended at the specification example payload on the
empty store: two distinct service types give two ServiceInterest rows. -/
theorem C4_amended_distinct_interest_count_witness :
    ∃ st' envl, register envAll db0 sampleInput = (st', RegisterResult.ok envl) ∧
      envl.success = true ∧ envl.statusCode = 201 ∧
      envl.data.serviceInterest.length = sampleInput.serviceType.dedup.length := by
  exact C4_amended_distinct_interest_count envAll db0 sampleInput
    (by decide) (by decide) (by decide) (by decide)

/-- C5 counterexample: at the payload with an empty serviceType list the
pipeline does reject with a validation failure, but the reported message is
the constant "At least one service type must be selected" with a capital A;
the exact lowercase message stated in the claim is not among the reported
messages, so the claim fails at this input. -/
theorem C5_counterexample :
    register envAll db0 emptyTypesInput =
      (db0, .fail (.validation ["At least one service type must be selected"])) ∧
    "at least one service type must be selected" ∉
      (["At least one service type must be selected"] : List String) ∧
    "At least one service type must be selected" ∈
      (["At least one service type must be selected"] : List String) := by
  exact ⟨rfl, by decide, by decide⟩

/-- C5 amended: for every input whose serviceType list is empty, register
rejects the submission with a validation failure of status 400 whose
messages include the distinct message
"At least one service type must be selected", and the store is returned
unchanged: no Lead or ServiceInterest row is created and no persistence is
attempted. -/
theorem C5_amended_empty_service_type (env : ValidationEnv) (st : DbState)
    (d : RegisterInput) (h0 : d.serviceType = []) :
    register env st d = (st, .fail (.validation (validateRegisterInput env d))) ∧
    ERROR_MESSAGES.MINIMUM_SERVICE_TYPE ∈ validateRegisterInput env d ∧
    RegisterFailure.status (.validation (validateRegisterInput env d)) = some 400 := by
  have hmem : ERROR_MESSAGES.MINIMUM_SERVICE_TYPE ∈ validateRegisterInput env d := by
    unfold validateRegisterInput
    have : d.serviceType.length < 1 := by simp [h0]
    simp [this]
  refine ⟨?_, hmem, rfl⟩
  unfold register
  rw [if_neg (List.ne_nil_of_mem hmem)]

/-- Witness for C5 amended at the specification example payload with the
serviceType list emptied, on the empty store. -/
theorem C5_amended_empty_service_type_witness :
    register envAll db0 emptyTypesInput =
      (db0, .fail (.validation (validateRegisterInput envAll emptyTypesInput))) ∧
    ERROR_MESSAGES.MINIMUM_SERVICE_TYPE ∈ validateRegisterInput envAll emptyTypesInput ∧
    RegisterFailure.status
      (.validation (validateRegisterInput envAll emptyTypesInput)) = some 400 := by
  exact C5_amended_empty_service_type envAll db0 emptyTypesInput (by decide)

/-- C6: the persistence step is atomic. On success the store gains exactly
the new Lead row and all of its ServiceInterest rows in the same write; a
duplicate email is rejected with the P2002 error targeting email and the
write yields no new state; and whenever the whole register pipeline fails,
the store it returns is exactly the store it was given, so a Lead without
its interests is never observable and a duplicate-email rejection creates no
row. -/
theorem C6_atomic_write (st : DbState) (inp : LeadCreateInput) :
    (∀ st' res, prismaLeadCreate st inp = .ok (st', res) →
      st'.leads = st.leads ++ [res.lead] ∧
      st'.interests = st.interests ++ res.serviceInterest) ∧
    (st.leads.any (fun l => l.email = inp.email) = true →
      prismaLeadCreate st inp = .error
        { code := "P2002",
          message := "Unique constraint failed on the fields: (email)",
          meta := some (.strings ["email"]) }) ∧
    (∀ env d st₂ f, register env st d = (st₂, RegisterResult.fail f) → st₂ = st) := by
  refine ⟨?_, ?_, ?_⟩
  · intro st' res h
    simp only [prismaLeadCreate] at h
    by_cases hm : st.leads.any (fun l => l.email = inp.email) = true
    · rw [if_pos hm] at h
      exact Except.noConfusion h
    · rw [if_neg hm] at h
      by_cases hn : (inp.serviceInterestCreate.getD []).Nodup
      · rw [if_pos hn] at h
        simp only [Except.ok.injEq, Prod.mk.injEq] at h
        obtain ⟨h1, h2⟩ := h
        rw [← h1, ← h2]
        exact ⟨rfl, rfl⟩
      · rw [if_neg hn] at h
        exact Except.noConfusion h
  · intro hdup
    unfold prismaLeadCreate
    rw [if_pos hdup]
  · intro env d st₂ f h
    unfold register at h
    split_ifs at h
    · revert h
      cases hr : LeadsService.registerLead st d with
      | ok p =>
          intro h
          simp only [Prod.mk.injEq] at h
          exact absurd h.2 (by simp)
      | error t =>
          intro h
          simp only [Prod.mk.injEq] at h
          exact h.1.symm
    · simp only [Prod.mk.injEq] at h
      exact h.1.symm

/-- Witness for C6: the full write at the example payload on the empty
store, the duplicate-email rejection against the store that already holds
the email, and the unchanged store on that failing register call. -/
theorem C6_atomic_write_witness :
    (db1.leads = db0.leads ++ [sampleCreated.lead] ∧
     db1.interests = db0.interests ++ sampleCreated.serviceInterest) ∧
    prismaLeadCreate dbWithLana (buildCreateLeadInput sampleInput) = .error
      { code := "P2002",
        message := "Unique constraint failed on the fields: (email)",
        meta := some (.strings ["email"]) } ∧
    dbWithLana = dbWithLana := by
  refine ⟨(C6_atomic_write db0 (buildCreateLeadInput sampleInput)).1 db1 sampleCreated (by rfl),
          (C6_atomic_write dbWithLana (buildCreateLeadInput sampleInput)).2.1 (by decide),
          (C6_atomic_write dbWithLana (buildCreateLeadInput sampleInput)).2.2 envAll
            sampleInput dbWithLana
            (.thrown (.http (.conflict
              { message := "Email already exists", code := "CONFLICT" })))
            (by rfl)⟩

/-- C7: for every known request error with the record-not-found code P2025,
the persistence error translator (the revision with the RECORD_NOT_FOUND
branch, which the spec designates as final) produces the domain not-found
error, whose status is 404 — not a conflict and not an internal error. -/
theorem C7_record_not_found (e : KnownRequestError)
    (h : e.code = PRISMA_ERROR_CODES.RECORD_NOT_FOUND) :
    BaseRepositoryR2.handleKnownRequestError e =
      .http (.notFound { message := ERROR_MESSAGES.NOT_FOUND,
                         code := ERROR_CODES.NOT_FOUND }) ∧
    HttpErr.status (.notFound { message := ERROR_MESSAGES.NOT_FOUND,
                                code := ERROR_CODES.NOT_FOUND }) = 404 := by
  unfold BaseRepositoryR2.handleKnownRequestError
  rw [h]
  rw [if_neg (by decide), if_pos (by decide)]
  exact ⟨rfl, rfl⟩

/-- Witness for C7 at a concrete P2025 error. -/
theorem C7_record_not_found_witness :
    BaseRepositoryR2.handleKnownRequestError
      { code := "P2025", message := "Record to update not found.", meta := none } =
      .http (.notFound { message := ERROR_MESSAGES.NOT_FOUND,
                         code := ERROR_CODES.NOT_FOUND }) ∧
    HttpErr.status (.notFound { message := ERROR_MESSAGES.NOT_FOUND,
                                code := ERROR_CODES.NOT_FOUND }) = 404 := by
  exact C7_record_not_found
    { code := "P2025", message := "Record to update not found.", meta := none } rfl

/-- C8: every value registerLead actually returns is a success envelope:
its catch branch always throws, so a returned envelope always has success
true and the failure shape is never a return value of the orchestrator. -/
theorem C8_no_failure_envelope (st : DbState) (d : RegisterInput)
    (st' : DbState) (envl : UtilityService.Envelope CreatedLead)
    (h : LeadsService.registerLead st d = .ok (st', envl)) :
    envl.success = true := by
  unfold LeadsService.registerLead at h
  revert h
  cases hc : LeadsRepositoryR2.create st d with
  | ok p =>
      intro h
      simp only [Except.ok.injEq, Prod.mk.injEq] at h
      rw [← h.2]
      rfl
  | error t =>
      intro h
      exact Except.noConfusion h

/-- Witness for C8 at the specification example payload on the empty
store. -/
theorem C8_no_failure_envelope_witness :
    ({ success := true, statusCode := 201,
       message := "Lead registered successfully",
       data := sampleCreated } : UtilityService.Envelope CreatedLead).success = true := by
  exact C8_no_failure_envelope db0 sampleInput db1
    { success := true, statusCode := 201,
      message := "Lead registered successfully", data := sampleCreated } (by rfl)

/-- C9: handlePrismaError never reaches its trailing re-throw: for every
caught value, one of the classifier branches of the switch produces a throw,
so the re-throw of the original raw storage error is unreachable. -/
theorem C9_no_reraise (v : CaughtValue) :
    (BaseRepository.switchHandlePrisma v).isSome = true ∧
    BaseRepository.handlePrismaError v ≠ Thrown.reraise v := by
  cases v with
  | knownRequest e =>
      exact ⟨rfl, handleKnownRequestError_ne_reraise e (.knownRequest e)⟩
  | httpException e => exact ⟨rfl, by simp [BaseRepository.handlePrismaError,
      BaseRepository.switchHandlePrisma, BaseRepository.handleUnknownError]⟩
  | jsError msg => exact ⟨rfl, by simp [BaseRepository.handlePrismaError,
      BaseRepository.switchHandlePrisma, BaseRepository.handleUnknownError]⟩
  | otherValue => exact ⟨rfl, by simp [BaseRepository.handlePrismaError,
      BaseRepository.switchHandlePrisma, BaseRepository.handleUnknownError]⟩

/-- C10: when the gateway is called with an empty serviceType list, the
nested ServiceInterest create block is omitted from the built input, and on
a unique email the write succeeds, inserting a Lead row with zero associated
ServiceInterest rows: the gateway itself does not enforce the
at-least-one-service-type constraint. -/
theorem C10_empty_list_gateway (st : DbState) (d : RegisterInput)
    (h0 : d.serviceType = [])
    (hmail : st.leads.any (fun l => l.email = d.email) = false) :
    (buildCreateLeadInput d).serviceInterestCreate = none ∧
    LeadsRepository.create st d =
      .ok ({ leads := st.leads ++
               [{ id := st.nextLeadId, name := d.name, mobile := d.mobile,
                  email := d.email, postCode := d.postCode }],
             interests := st.interests,
             nextLeadId := st.nextLeadId + 1,
             nextInterestId := st.nextInterestId },
           { lead := { id := st.nextLeadId, name := d.name, mobile := d.mobile,
                       email := d.email, postCode := d.postCode },
             serviceInterest := [] }) := by
  constructor
  · simp [buildCreateLeadInput, h0]
  · simp [LeadsRepository.create, prismaLeadCreate, buildCreateLeadInput,
      h0, hmail, interestRows]

/-- Witness for C10 at the emptied example payload on the empty store. -/
theorem C10_empty_list_gateway_witness :
    (buildCreateLeadInput emptyTypesInput).serviceInterestCreate = none ∧
    LeadsRepository.create db0 emptyTypesInput =
      .ok ({ leads := [{ id := 1, name := "Dr. Lana Mann",
                         mobile := "+63-946-922-8301",
                         email := "lana@example.com", postCode := "1588" }],
             interests := [], nextLeadId := 2, nextInterestId := 1 },
           { lead := { id := 1, name := "Dr. Lana Mann",
                       mobile := "+63-946-922-8301",
                       email := "lana@example.com", postCode := "1588" },
             serviceInterest := [] }) := by
  have h := C10_empty_list_gateway db0 emptyTypesInput (by decide) (by decide)
  exact ⟨h.1, by rw [h.2]; rfl⟩

end BrighteEats
